import Mathlib

namespace Timecamp

/-! Shallow embedding of the TimeCamp MCP server (`src/timecamp_mcp_server/server.py`
and `models.py`): the `SimpleCache` response cache, the `StateTracker` change log,
and the three mutating tool handlers `start_timer`, `stop_timer` and
`create_time_entry`.  Wall-clock instants (Python float timestamps and `datetime`
values) are modelled as integers; every Python call that samples `datetime.now()`
receives the sampled instant explicitly through an environment record. -/

/-- Flat JSON scalar as it appears in the upstream payloads and request bodies the
handlers actually consume. -/
inductive JPrim where
  | s (v : String)
  | i (v : Int)
  | null
deriving DecidableEq

/-- A JSON object with scalar fields: a key/value list, like a Python dict
preserving insertion order (a dict never holds a duplicate key). -/
abbrev JObj := List (String × JPrim)

/-- Python `str(x)` for a scalar interpolated into an f-string (`None` prints as
the string "None"). -/
def JPrim.pyStr : JPrim → String
  | .s v => v
  | .i n => toString n
  | .null => "None"

/-- Python `o.get(k, default)` followed by f-string interpolation. -/
def jGetS (o : JObj) (k : String) (dflt : String) : String :=
  match o.lookup k with
  | some v => v.pyStr
  | none => dflt

/-- Python `o.get(k1, o.get(k2))`: the value at `k1` if present, else at `k2`,
else `None`. -/
def jGet2 (o : JObj) (k1 k2 : String) : JPrim :=
  match o.lookup k1 with
  | some v => v
  | none => (o.lookup k2).getD .null

/-- Python dict assignment `d[k] = v` on an association list: replace the existing
binding in place, else append at the end (CPython dicts preserve insertion order
and keep the position of an updated key). -/
def listSet {β : Type} (l : List (String × β)) (k : String) (v : β) : List (String × β) :=
  if l.any (fun p => p.1 == k) then l.map (fun p => if p.1 == k then (k, v) else p)
  else l ++ [(k, v)]

/-- Python `del d[k]` on an association list.  A dict never holds a duplicate key,
so dropping every binding for `k` agrees with deleting the one binding. -/
def listErase {β : Type} (l : List (String × β)) (k : String) : List (String × β) :=
  l.filter (fun p => p.1 != k)

/-- One cache slot: the `(value, expiry, etag)` triple stored by `SimpleCache.set`. -/
structure CacheEntry (α : Type) where
  value : α
  expiry : Int
  etag : String
deriving DecidableEq

/-- The `SimpleCache` class of server.py: an in-memory TTL cache with ETag support.
Its `self._cache` dict is a key/value list. -/
structure SimpleCache (α : Type) where
  entries : List (String × CacheEntry α)
deriving DecidableEq

/-- Dict membership/indexing `self._cache[key]`. -/
def SimpleCache.lookup {α : Type} (c : SimpleCache α) (key : String) : Option (CacheEntry α) :=
  c.entries.lookup key

/-- Dict deletion `del self._cache[key]`. -/
def SimpleCache.erase {α : Type} (c : SimpleCache α) (key : String) : SimpleCache α :=
  ⟨listErase c.entries key⟩

/-- The `SimpleCache.get` method: returns the `(value, etag, not_modified)` triple
together with the cache left behind by the call (an expired entry is deleted by
the lookup itself, lazily).  `now` is the `datetime.now().timestamp()` sampled
inside the call.  The Python guard `if etag and etag == current_etag` is truthy
only for a non-empty provided etag. -/
def SimpleCache.get {α : Type} (c : SimpleCache α) (key : String) (ifEtag : Option String)
    (now : Int) : (Option α × Option String × Bool) × SimpleCache α :=
  match c.lookup key with
  | some e =>
      if now < e.expiry then
        match ifEtag with
        | some t =>
            if t != "" && t == e.etag then ((none, some e.etag, true), c)
            else ((some e.value, some e.etag, false), c)
        | none => ((some e.value, some e.etag, false), c)
      else ((none, none, false), c.erase key)
  | none => ((none, none, false), c)

/-- Stand-in for `hashlib.md5(str(value).encode()).hexdigest()` in
`SimpleCache.set`.  MD5 lives in the Python standard library, outside this
repository; it is modelled by a deterministic hex digest of the input string, and
every property in scope depends only on the digest being a pure function of that
string. -/
def md5hex (s : String) : String :=
  String.mk (Nat.toDigits 16
    (s.data.foldl (fun h c => (h * 131 + c.toNat) % 18446744073709551616) 7))

/-- The `SimpleCache.set` method: stores `(value, now + ttl, etag)` under `key`,
replacing any prior entry, and returns the etag `f'"{md5(str(value))}"'`.
`strFn` stands for Python global `str` on the stored value. -/
def SimpleCache.set {α : Type} (c : SimpleCache α) (strFn : α → String) (key : String)
    (value : α) (ttl : Int) (now : Int) : String × SimpleCache α :=
  let etag := "\"" ++ md5hex (strFn value) ++ "\""
  (etag, ⟨listSet c.entries key ⟨value, now + ttl, etag⟩⟩)

/-- The `SimpleCache.invalidate` method: drops the entry for `key` if present,
no-op otherwise. -/
def SimpleCache.invalidate {α : Type} (c : SimpleCache α) (key : String) : SimpleCache α :=
  c.erase key

/-- The `SimpleCache.clear` method. -/
def SimpleCache.clear {α : Type} (_c : SimpleCache α) : SimpleCache α :=
  ⟨[]⟩

/-- One record of the `StateTracker` change log.  The stored
`datetime.now().isoformat()` string is modelled by the sampled instant itself;
`datetime.fromisoformat` applied to it in `get_changes_since` is then the
identity, so the comparison is on instants, exactly as in the source.
`changeType` is the dict key "type". -/
structure ChangeRecord where
  changeType : String
  timestamp : Int
  details : JObj
deriving DecidableEq

/-- The `StateTracker` class of server.py.  `self._max_changes` is fixed to 100
in `__init__`. -/
structure StateTracker where
  changes : List ChangeRecord
deriving DecidableEq

def StateTracker.maxChanges : Nat := 100

/-- The `record_change` method: append a record stamped with the current instant,
then keep only the last `_max_changes` records
(`self._changes = self._changes[-self._max_changes:]`). -/
def StateTracker.record_change (st : StateTracker) (changeType : String) (now : Int)
    (details : JObj) : StateTracker :=
  let cs := st.changes ++ [⟨changeType, now, details⟩]
  if cs.length > StateTracker.maxChanges then ⟨cs.drop (cs.length - StateTracker.maxChanges)⟩
  else ⟨cs⟩

/-- The `get_changes_since` method: the whole log when no timestamp is given
(`if not timestamp`; a datetime argument is always truthy, so falsiness means
`None`), else the records strictly newer than the argument. -/
def StateTracker.get_changes_since (st : StateTracker) (timestamp : Option Int) :
    List ChangeRecord :=
  match timestamp with
  | none => st.changes
  | some t => st.changes.filter (fun c => decide (t < c.timestamp))

/-- Iterate `record_change` over a list of `(changeType, now, details)` calls. -/
def StateTracker.recordAll (st : StateTracker) (items : List (String × Int × JObj)) :
    StateTracker :=
  items.foldl (fun t i => t.record_change i.1 i.2.1 i.2.2) st

/-- The record that the call `record_change i.1 i.2.1 i.2.2` appends. -/
def mkChangeRecord (i : String × Int × JObj) : ChangeRecord :=
  ⟨i.1, i.2.1, i.2.2⟩

/-! Association-list lookup lemmas for the dict operations. -/

theorem lookupConsEq {β : Type} (a k : String) (b : β) (l : List (String × β)) :
    ((a, b) :: l).lookup k = if k == a then some b else l.lookup k := by
  cases h : (k == a) <;> simp [List.lookup_cons, h]

theorem lookup_mapReplace_self {β : Type} (l : List (String × β)) (k : String) (v : β)
    (h : l.any (fun p => p.1 == k) = true) :
    (l.map (fun p => if p.1 == k then (k, v) else p)).lookup k = some v := by
  induction l with
  | nil => simp at h
  | cons p rest ih =>
    obtain ⟨a, b⟩ := p
    by_cases ha : a = k
    · simp [ha, lookupConsEq]
    · have h2 : rest.any (fun p => p.1 == k) = true := by simpa [ha] using h
      simpa [lookupConsEq, ha, beq_false_of_ne (Ne.symm ha)] using ih h2

theorem lookup_mapReplace_ne {β : Type} (l : List (String × β)) (k k2 : String) (v : β)
    (h : k2 ≠ k) :
    (l.map (fun p => if p.1 == k then (k, v) else p)).lookup k2 = l.lookup k2 := by
  induction l with
  | nil => simp
  | cons p rest ih =>
    obtain ⟨a, b⟩ := p
    by_cases ha : a = k
    · by_cases hb : k2 = a
      · exact absurd (hb.trans ha) h
      · simpa [lookupConsEq, ha, beq_false_of_ne h, beq_false_of_ne hb] using ih
    · by_cases hb : k2 = a
      · simp [lookupConsEq, ha, hb]
      · simpa [lookupConsEq, ha, beq_false_of_ne hb] using ih

theorem lookup_append_single_self {β : Type} (l : List (String × β)) (k : String) (v : β)
    (h : ¬ l.any (fun p => p.1 == k) = true) : (l ++ [(k, v)]).lookup k = some v := by
  induction l with
  | nil => simp [lookupConsEq]
  | cons p rest ih =>
    obtain ⟨a, b⟩ := p
    have ha : ¬ a = k := fun he => h (by simp [he])
    have h2 : ¬ rest.any (fun p => p.1 == k) = true := fun h2 => h (by simp [h2])
    simp [List.cons_append, lookupConsEq, beq_false_of_ne (Ne.symm ha), ih h2]

theorem lookup_append_single_ne {β : Type} (l : List (String × β)) (k k2 : String) (v : β)
    (h : k2 ≠ k) : (l ++ [(k, v)]).lookup k2 = l.lookup k2 := by
  induction l with
  | nil => simp [lookupConsEq, beq_false_of_ne h]
  | cons p rest ih =>
    obtain ⟨a, b⟩ := p
    by_cases hb : k2 = a
    · simp [List.cons_append, lookupConsEq, hb]
    · simp [List.cons_append, lookupConsEq, beq_false_of_ne hb, ih]

theorem lookup_listSet_self {β : Type} (l : List (String × β)) (k : String) (v : β) :
    (listSet l k v).lookup k = some v := by
  unfold listSet
  split
  next h => exact lookup_mapReplace_self l k v h
  next h => exact lookup_append_single_self l k v h

theorem lookup_listSet_ne {β : Type} (l : List (String × β)) (k k2 : String) (v : β)
    (h : k2 ≠ k) : (listSet l k v).lookup k2 = l.lookup k2 := by
  unfold listSet
  split
  next => exact lookup_mapReplace_ne l k k2 v h
  next => exact lookup_append_single_ne l k k2 v h

theorem lookup_listErase_self {β : Type} (l : List (String × β)) (k : String) :
    (listErase l k).lookup k = none := by
  unfold listErase
  induction l with
  | nil => simp
  | cons p rest ih =>
    obtain ⟨a, b⟩ := p
    by_cases ha : a = k
    · simpa [List.filter_cons, ha] using ih
    · simpa [List.filter_cons, ha, lookupConsEq, beq_false_of_ne (Ne.symm ha)] using ih

theorem lookup_listErase_ne {β : Type} (l : List (String × β)) (k k2 : String)
    (h : k2 ≠ k) : (listErase l k).lookup k2 = l.lookup k2 := by
  unfold listErase
  induction l with
  | nil => simp
  | cons p rest ih =>
    obtain ⟨a, b⟩ := p
    by_cases ha : a = k
    · simpa [List.filter_cons, ha, lookupConsEq, beq_false_of_ne h] using ih
    · by_cases h2 : k2 = a
      · simp [List.filter_cons, ha, lookupConsEq, h2]
      · simp [List.filter_cons, ha, lookupConsEq, beq_false_of_ne h2, ih]

theorem SimpleCache.lookup_set_self {α : Type} (c : SimpleCache α) (strFn : α → String)
    (key : String) (value : α) (ttl now : Int) :
    ((c.set strFn key value ttl now).2).lookup key =
      some ⟨value, now + ttl, (c.set strFn key value ttl now).1⟩ := by
  simp [SimpleCache.set, SimpleCache.lookup, lookup_listSet_self]

theorem SimpleCache.lookup_set_ne {α : Type} (c : SimpleCache α) (strFn : α → String)
    (key k2 : String) (value : α) (ttl now : Int) (h : k2 ≠ key) :
    ((c.set strFn key value ttl now).2).lookup k2 = c.lookup k2 := by
  simp [SimpleCache.set, SimpleCache.lookup, lookup_listSet_ne _ _ _ _ h]

theorem SimpleCache.lookup_erase_self {α : Type} (c : SimpleCache α) (key : String) :
    (c.erase key).lookup key = none := by
  simp [SimpleCache.erase, SimpleCache.lookup, lookup_listErase_self]

theorem SimpleCache.lookup_erase_ne {α : Type} (c : SimpleCache α) (key k2 : String)
    (h : k2 ≠ key) : (c.erase key).lookup k2 = c.lookup k2 := by
  simp [SimpleCache.erase, SimpleCache.lookup, lookup_listErase_ne _ _ _ h]

theorem SimpleCache.lookup_get_snd_ne {α : Type} (c : SimpleCache α) (key k2 : String)
    (ifEtag : Option String) (now : Int) (h : k2 ≠ key) :
    ((c.get key ifEtag now).2).lookup k2 = c.lookup k2 := by
  unfold SimpleCache.get
  rcases hl : c.lookup key with _ | e
  · simp
  · by_cases hn : now < e.expiry
    · rcases ifEtag with _ | t
      · simp [hn]
      · by_cases ht : (t != "" && t == e.etag) = true <;> simp [hn, ht]
    · simp [hn, SimpleCache.lookup_erase_ne _ _ _ h]

/-- The etag `set` issues is never the empty string (it is wrapped in quotes), so
the Python truthiness guard `if etag` accepts it. -/
theorem setEtag_ne_empty (s : String) : ("\"" ++ md5hex s ++ "\"") ≠ "" := by
  intro h
  have hlen := congrArg String.length h
  simp only [String.length_append] at hlen
  have h1 : ("\"" : String).length = 1 := rfl
  have h0 : ("" : String).length = 0 := rfl
  omega

/-! Claims about the cache in isolation. -/

/-- C2: after `set(k, v, ttl)` returns etag `e`, a `get(k)` before the ttl elapses
with no `ifEtag` or with an `ifEtag` different from `e` returns
`(v, e, notModified = false)`, and a `get(k, e)` before the ttl elapses returns an
absent value, etag `e`, and `notModified = true`. -/
theorem C2_conditional_get_after_set {α : Type} (strFn : α → String) (c : SimpleCache α)
    (k : String) (v : α) (ttl t0 t1 : Int) (httl : 0 < ttl) (ht : t1 < t0 + ttl) :
    (∀ ifEtag : Option String, ifEtag ≠ some (c.set strFn k v ttl t0).1 →
        (((c.set strFn k v ttl t0).2).get k ifEtag t1).1 =
          (some v, some (c.set strFn k v ttl t0).1, false)) ∧
    (((c.set strFn k v ttl t0).2).get k (some (c.set strFn k v ttl t0).1) t1).1 =
      (none, some (c.set strFn k v ttl t0).1, true) := by
  have hlook := SimpleCache.lookup_set_self c strFn k v ttl t0
  have hne0 : (c.set strFn k v ttl t0).1 ≠ "" := setEtag_ne_empty (strFn v)
  constructor
  · rintro (_ | s) hne
    · simp [SimpleCache.get, hlook, ht]
    · have hsne : s ≠ (c.set strFn k v ttl t0).1 := fun h => hne (by rw [h])
      by_cases hs : s = ""
      · simp [SimpleCache.get, hlook, ht, hs]
      · simp [SimpleCache.get, hlook, ht, bne_iff_ne, hs, beq_false_of_ne hsne]
  · simp [SimpleCache.get, hlook, ht, bne_iff_ne, hne0]

/-- C2 witness at a concrete instance. -/
theorem C2_conditional_get_after_set_witness :
    ((((SimpleCache.mk ([] : List (String × CacheEntry Int))).set toString "k" 42 300 1000).2).get
        "k" none 1100).1 =
      (some 42, some (((SimpleCache.mk ([] : List (String × CacheEntry Int))).set
        toString "k" 42 300 1000).1), false) :=
  (C2_conditional_get_after_set toString ⟨[]⟩ "k" 42 300 1000 1100 (by decide)
    (by decide)).1 none (by simp [SimpleCache.set])

/-- C4: the etag issued by `set` is a pure, deterministic function of the stored
value: two `set` calls with equal values return the same etag, whatever the prior
cache state, ttl or call time, and a conditional `get` carrying the etag of the
first `set` still reports `notModified = true` after the second `set`. -/
theorem C4_etag_pure_function {α : Type} (strFn : α → String) (c1 c2 : SimpleCache α)
    (k : String) (v1 v2 : α) (ttl1 ttl2 t0 t1 t : Int) (hv : v1 = v2)
    (ht : t < t1 + ttl2) :
    (c1.set strFn k v1 ttl1 t0).1 = (c2.set strFn k v2 ttl2 t1).1 ∧
    (((c2.set strFn k v2 ttl2 t1).2).get k (some (c1.set strFn k v1 ttl1 t0).1) t).1.2.2 =
      true := by
  have heq : (c1.set strFn k v1 ttl1 t0).1 = (c2.set strFn k v2 ttl2 t1).1 := by
    simp [SimpleCache.set, hv]
  refine ⟨heq, ?_⟩
  rw [heq]
  have hlook := SimpleCache.lookup_set_self c2 strFn k v2 ttl2 t1
  have hne0 : (c2.set strFn k v2 ttl2 t1).1 ≠ "" := setEtag_ne_empty (strFn v2)
  simp [SimpleCache.get, hlook, ht, bne_iff_ne, hne0]

/-- C4 witness at a concrete instance. -/
theorem C4_etag_pure_function_witness :
    ((SimpleCache.mk ([] : List (String × CacheEntry Int))).set toString "a" 7 300 0).1 =
      ((SimpleCache.mk [("a", CacheEntry.mk 5 99 "x")]).set toString "a" 7 60 50).1 :=
  (C4_etag_pure_function toString ⟨[]⟩ ⟨[("a", ⟨5, 99, "x"⟩)]⟩ "a" 7 7 300 60 0 50 100 rfl
    (by decide)).1

/-- C5: expiry is lazy and exact: a `get(k)` at or after the entry's expiry behaves
identically to absence, returning `(absent, absent, false)` and deleting the entry
as a side effect of that lookup; and after `set(k, v, 0)` every `get(k)` at or
after the set time returns absent. -/
theorem C5_lazy_expiry {α : Type} (strFn : α → String) :
    (∀ (c : SimpleCache α) (k : String) (ent : CacheEntry α) (ifEtag : Option String)
        (now : Int), c.lookup k = some ent → ent.expiry ≤ now →
        c.get k ifEtag now = ((none, none, false), c.erase k)) ∧
    (∀ (c : SimpleCache α) (k : String) (v : α) (t0 t : Int) (ifEtag : Option String),
        t0 ≤ t → (((c.set strFn k v 0 t0).2).get k ifEtag t).1 = (none, none, false)) := by
  constructor
  · intro c k ent ifEtag now hl hexp
    have hn : ¬ now < ent.expiry := not_lt.mpr hexp
    simp [SimpleCache.get, hl, hn]
  · intro c k v t0 t ifEtag hle
    have hlook := SimpleCache.lookup_set_self c strFn k v 0 t0
    have hn : ¬ t < t0 := by omega
    simp [SimpleCache.get, hlook, hn]

/-- C5 witness at a concrete instance. -/
theorem C5_lazy_expiry_witness :
    ((SimpleCache.mk [("k", CacheEntry.mk (3 : Int) 50 "e")]).get "k" none 50) =
      ((none, none, false), (SimpleCache.mk [("k", CacheEntry.mk (3 : Int) 50 "e")]).erase "k") :=
  (C5_lazy_expiry (toString : Int → String)).1 ⟨[("k", ⟨3, 50, "e"⟩)]⟩ "k" ⟨3, 50, "e"⟩
    none 50 rfl (by decide)

/-- C10: when no live entry exists for a key, `get` returns
`(absent, absent, false)` whatever `ifEtag` is given, and `notModified = true` is
only ever reported while a live entry currently exists for the key. -/
theorem C10_notModified_only_live {α : Type} :
    (∀ (c : SimpleCache α) (k : String) (ifEtag : Option String) (now : Int),
        (∀ ent : CacheEntry α, c.lookup k = some ent → ent.expiry ≤ now) →
        (c.get k ifEtag now).1 = (none, none, false)) ∧
    (∀ (c : SimpleCache α) (k : String) (ifEtag : Option String) (now : Int),
        (c.get k ifEtag now).1.2.2 = true →
        ∃ ent : CacheEntry α, c.lookup k = some ent ∧ now < ent.expiry) := by
  constructor
  · intro c k ifEtag now h
    unfold SimpleCache.get
    rcases hl : c.lookup k with _ | ent
    · simp
    · have hn : ¬ now < ent.expiry := not_lt.mpr (h ent hl)
      simp [hn]
  · intro c k ifEtag now h
    unfold SimpleCache.get at h
    rcases hl : c.lookup k with _ | ent
    · rw [hl] at h
      simp at h
    · by_cases hn : now < ent.expiry
      · exact ⟨ent, rfl, hn⟩
      · simp [hl, hn] at h

/-- C10 witness at a concrete instance (the key was never set). -/
theorem C10_notModified_only_live_witness :
    ((SimpleCache.mk ([] : List (String × CacheEntry Int))).get "k" (some "\"abc\"") 0).1 =
      (none, none, false) :=
  C10_notModified_only_live.1 ⟨[]⟩ "k" (some "\"abc\"") 0 (fun ent h => by simp [SimpleCache.lookup] at h)

/-! Claims about the change log in isolation. -/

/-- C7: `get_changes_since t` is exactly the filter of the retained log to records
with timestamp strictly greater than `t`, in log order (a sublist of the log), and
`get_changes_since` with no argument is the full retained log. -/
theorem C7_get_changes_since_filter (st : StateTracker) (t : Int) :
    st.get_changes_since (some t) =
      st.changes.filter (fun c => decide (t < c.timestamp)) ∧
    (∀ c : ChangeRecord,
        c ∈ st.get_changes_since (some t) ↔ c ∈ st.changes ∧ t < c.timestamp) ∧
    List.Sublist (st.get_changes_since (some t)) st.changes ∧
    st.get_changes_since none = st.changes := by
  refine ⟨rfl, ?_, ?_, rfl⟩
  · intro c
    simp [StateTracker.get_changes_since, List.mem_filter]
  · exact List.filter_sublist _

/-- C7 witness at a concrete instance. -/
theorem C7_get_changes_since_filter_witness :
    (StateTracker.mk [⟨"a", 1, []⟩, ⟨"b", 5, []⟩, ⟨"c", 9, []⟩]).get_changes_since (some 5) =
      ((StateTracker.mk [⟨"a", 1, []⟩, ⟨"b", 5, []⟩, ⟨"c", 9, []⟩]).changes.filter
        (fun c => decide (5 < c.timestamp))) :=
  (C7_get_changes_since_filter ⟨[⟨"a", 1, []⟩, ⟨"b", 5, []⟩, ⟨"c", 9, []⟩]⟩ 5).1

/-- One `record_change` step, written as a conditional on the appended log. -/
theorem record_change_changes_item (st : StateTracker) (i : String × Int × JObj) :
    (st.record_change i.1 i.2.1 i.2.2).changes =
      if (st.changes ++ [mkChangeRecord i]).length > StateTracker.maxChanges
      then (st.changes ++ [mkChangeRecord i]).drop
        ((st.changes ++ [mkChangeRecord i]).length - StateTracker.maxChanges)
      else st.changes ++ [mkChangeRecord i] := by
  unfold StateTracker.record_change mkChangeRecord
  dsimp only
  by_cases h : (st.changes ++ [(⟨i.1, i.2.1, i.2.2⟩ : ChangeRecord)]).length >
      StateTracker.maxChanges
  · rw [if_pos h, if_pos h]
  · rw [if_neg h, if_neg h]

theorem recordAll_cons (st : StateTracker) (i : String × Int × JObj)
    (rest : List (String × Int × JObj)) :
    st.recordAll (i :: rest) = (st.record_change i.1 i.2.1 i.2.2).recordAll rest := rfl

/-- After folding `record_change` over `items` starting from a log within the
bound, the log is the suffix of the whole inserted sequence that fits the bound. -/
theorem recordAll_changes_eq (items : List (String × Int × JObj)) :
    ∀ st : StateTracker, st.changes.length ≤ StateTracker.maxChanges →
      (st.recordAll items).changes =
        (st.changes ++ items.map mkChangeRecord).drop
          (st.changes.length + items.length - StateTracker.maxChanges) := by
  induction items with
  | nil =>
    intro st hl
    have h0 : st.changes.length + ([] : List (String × Int × JObj)).length -
        StateTracker.maxChanges = 0 := by
      simp only [List.length_nil]
      omega
    rw [h0]
    simp [StateTracker.recordAll]
  | cons i rest ih =>
    intro st hl
    rw [recordAll_cons]
    by_cases hfull : st.changes.length = StateTracker.maxChanges
    · have hch : (st.record_change i.1 i.2.1 i.2.2).changes =
          (st.changes ++ [mkChangeRecord i]).drop 1 := by
        rw [record_change_changes_item]
        rw [if_pos]
        · have h1 : (st.changes ++ [mkChangeRecord i]).length -
              StateTracker.maxChanges = 1 := by
            simp only [List.length_append, List.length_cons, List.length_nil, hfull]
            omega
          rw [h1]
        · simp only [List.length_append, List.length_cons, List.length_nil, hfull]
          omega
      have hb : (st.record_change i.1 i.2.1 i.2.2).changes.length ≤
          StateTracker.maxChanges := by
        rw [hch]
        simp only [List.length_drop, List.length_append, List.length_cons, List.length_nil]
        omega
      have hih := ih (st.record_change i.1 i.2.1 i.2.2) hb
      rw [hch] at hih
      rw [hih]
      have hlen1 : ((st.changes ++ [mkChangeRecord i]).drop 1).length + rest.length -
          StateTracker.maxChanges = rest.length := by
        simp only [List.length_drop, List.length_append, List.length_cons, List.length_nil, hfull]
        omega
      rw [hlen1]
      have h1le : 1 ≤ (st.changes ++ [mkChangeRecord i]).length := by
        simp only [List.length_append, List.length_cons, List.length_nil]
        omega
      have hsplit : (st.changes ++ [mkChangeRecord i]).drop 1 ++ rest.map mkChangeRecord =
          ((st.changes ++ [mkChangeRecord i]) ++ rest.map mkChangeRecord).drop 1 :=
        (List.drop_append_of_le_length h1le).symm
      rw [hsplit, List.drop_drop]
      rw [List.append_assoc, List.singleton_append, ← List.map_cons]
      have hidx2 : 1 + rest.length =
          st.changes.length + (i :: rest).length - StateTracker.maxChanges := by
        simp only [List.length_cons, hfull]
        omega
      rw [hidx2]
    · have hlt : st.changes.length < StateTracker.maxChanges := lt_of_le_of_ne hl hfull
      have hch : (st.record_change i.1 i.2.1 i.2.2).changes =
          st.changes ++ [mkChangeRecord i] := by
        rw [record_change_changes_item]
        rw [if_neg]
        simp only [List.length_append, List.length_cons, List.length_nil]
        omega
      have hb : (st.record_change i.1 i.2.1 i.2.2).changes.length ≤
          StateTracker.maxChanges := by
        rw [hch]
        simp only [List.length_append, List.length_cons, List.length_nil]
        omega
      have hih := ih (st.record_change i.1 i.2.1 i.2.2) hb
      rw [hch] at hih
      rw [hih]
      rw [List.append_assoc, List.singleton_append, ← List.map_cons]
      have hidx2 : (st.changes ++ [mkChangeRecord i]).length + rest.length -
          StateTracker.maxChanges =
          st.changes.length + (i :: rest).length - StateTracker.maxChanges := by
        simp only [List.length_append, List.length_cons, List.length_nil, List.length_cons]
        omega
      rw [hidx2]

/-- C6: after `N + k` (`k > 0`) calls to `record_change` on an empty log with bound
`N = 100`, `get_changes_since()` with no argument returns exactly `N` records, the
oldest surviving record is the `(k+1)`-th record inserted, and the survivors are a
suffix of the inserted sequence, in their original insertion order. -/
theorem C6_bounded_log (items : List (String × Int × JObj)) (k : Nat) (hk : 0 < k)
    (hlen : items.length = StateTracker.maxChanges + k) :
    (StateTracker.recordAll ⟨[]⟩ items).get_changes_since none =
      (items.map mkChangeRecord).drop k ∧
    ((StateTracker.recordAll ⟨[]⟩ items).get_changes_since none).length =
      StateTracker.maxChanges ∧
    ((StateTracker.recordAll ⟨[]⟩ items).get_changes_since none).head? =
      (items.map mkChangeRecord)[k]? ∧
    List.Sublist ((StateTracker.recordAll ⟨[]⟩ items).get_changes_since none)
      (items.map mkChangeRecord) := by
  have key := recordAll_changes_eq items ⟨[]⟩ (by simp)
  have hidx : (StateTracker.mk []).changes.length + items.length -
      StateTracker.maxChanges = k := by
    simp only [List.length_nil, hlen]
    omega
  rw [hidx] at key
  simp only [List.nil_append] at key
  have hmain : (StateTracker.recordAll ⟨[]⟩ items).get_changes_since none =
      (items.map mkChangeRecord).drop k := key
  refine ⟨hmain, ?_, ?_, ?_⟩
  · rw [hmain, List.length_drop, List.length_map, hlen]
    omega
  · rw [hmain]
    simp [List.head?_drop]
  · rw [hmain]
    exact List.drop_sublist _ _

/-- C6 witness: 101 insertions with bound 100 retain exactly 100 records. -/
theorem C6_bounded_log_witness :
    (0 < 1 ∧ ((List.range 101).map (fun n => ("t", Int.ofNat n, ([] : JObj)))).length =
        StateTracker.maxChanges + 1) ∧
    ((StateTracker.recordAll ⟨[]⟩
        ((List.range 101).map (fun n => ("t", Int.ofNat n, ([] : JObj))))).get_changes_since
          none).length = StateTracker.maxChanges :=
  ⟨⟨Nat.one_pos, by rw [List.length_map, List.length_range]; decide⟩,
   (C6_bounded_log ((List.range 101).map (fun n => ("t", Int.ofNat n, ([] : JObj)))) 1
     Nat.one_pos (by rw [List.length_map, List.length_range]; decide)).2.1⟩

/-! The server environment and the three mutating tool handlers. -/

/-- A JSON body returned by the upstream API, in the two shapes the handlers
consume: a flat object (`timer_running`, POST/PUT results) or an id-keyed mapping
of objects (`projects`, `tasks`, `time_entries`). -/
inductive UpResp where
  | obj (o : JObj)
  | idMap (m : List (String × JObj))
deriving DecidableEq

/-- What the HTTP layer hands `TimeCampClient.request`: a body, an HTTP error
status (from `raise_for_status`), or a connection-level failure. -/
inductive RawOutcome where
  | ok (resp : UpResp)
  | httpStatus (code : Nat)
  | netError (msg : String)
deriving DecidableEq

/-- A failure surfaced by a handler: a `ToolError` (`tool`) or an uncaught Python
exception escaping the handler (`py`). -/
inductive TErr where
  | tool (msg : String)
  | py (msg : String)
deriving DecidableEq

/-- Error classification in `TimeCampClient.request` (server.py lines 108-122):
401, 404, 429 and 5xx map to fixed messages, other statuses to a generic API
error carrying the code, connection failures to a network error. -/
def classify : RawOutcome → Except TErr UpResp
  | .ok r => .ok r
  | .httpStatus code =>
      if code == 401 then .error (.tool "Invalid API token. Check TimeCamp settings")
      else if code == 404 then .error (.tool "Resource not found")
      else if code == 429 then .error (.tool "Rate limit exceeded. Wait 60 seconds")
      else if 500 ≤ code && code < 600 then
        .error (.tool "TimeCamp unavailable. Try again later")
      else .error (.tool ("API error: " ++ toString code))
  | .netError msg => .error (.tool ("Network error: " ++ msg))

/-- The ambient world of one tool invocation: the `TIMECAMP_API_TOKEN` variable,
the upstream API as a function of `(method, endpoint, body)`, the instants and
strings that the various `datetime.now()` calls produce (`nowTs` the timestamp,
`today` the `%Y-%m-%d` string, `nowIso` the isoformat string),
`datetime.fromisoformat` as a partial parse, and the `CACHE_TTL` setting
(default 300). -/
structure Env where
  apiToken : Option String
  upstream : String → String → Option JObj → RawOutcome
  nowTs : Int
  today : String
  nowIso : String
  isoToTs : String → Option Int
  cacheTTL : Int

/-- A value held by the server's global cache: a project/task list as stored by
the read-through helpers, or some other cached response payload (timer status,
daily summary), opaque to the mutating handlers. -/
inductive CVal where
  | objs (l : List JObj)
  | resp (o : JObj)
deriving DecidableEq

/-- Stand-in for Python `str` on a scalar inside a cached value. -/
def JPrim.reprStr : JPrim → String
  | .s v => "s:" ++ v
  | .i n => "i:" ++ toString n
  | .null => "None"

/-- Stand-in for Python `str` on an object inside a cached value. -/
def JObj.reprStr (o : JObj) : String :=
  o.foldl (fun acc p => acc ++ "(" ++ p.1 ++ "=" ++ p.2.reprStr ++ ")") ""

/-- Stand-in for Python `str` on a cached value, the argument of the MD5
fingerprint in `SimpleCache.set`; only its determinism matters in scope. -/
def CVal.pyStr : CVal → String
  | .objs l => l.foldl (fun acc o => acc ++ "[" ++ JObj.reprStr o ++ "]") "objs:"
  | .resp o => "resp:" ++ JObj.reprStr o

/-- A cached project/task list.  A non-list value under the "tasks"/"projects"
keys would crash the Python iteration; only the read-through helpers ever write
those keys, so the case is unreachable and modelled by the empty list. -/
def CVal.asObjs : CVal → List JObj
  | .objs l => l
  | .resp _ => []

/-- Duck-typed response access: the handlers read `timer_running` and POST/PUT
results as flat objects; a shape mismatch (unreachable under the upstream
contract) is modelled by the empty object. -/
def UpResp.asObj : UpResp → JObj
  | .obj o => o
  | .idMap _ => []

/-- Duck-typed response access for the id-keyed list endpoints. -/
def UpResp.asIdMap : UpResp → List (String × JObj)
  | .idMap m => m
  | .obj _ => []

/-- Python `o.get(k)`: the value, or `None` when absent. -/
def jGetP (o : JObj) (k : String) : JPrim :=
  (o.lookup k).getD .null

/-- The mutable state a tool invocation touches: the global cache, the global
change tracker, and the trace of upstream calls made (observable network I/O,
recorded by `TimeCampClient.request` in the model). -/
structure SState where
  cache : SimpleCache CVal
  tracker : StateTracker
  calls : List (String × String)
deriving DecidableEq

/-- The `TimeCampClient.request` call: classify the raw outcome and append the
call to the I/O trace. -/
def srequest (env : Env) (st : SState) (method endpoint : String) (data : Option JObj) :
    Except TErr UpResp × SState :=
  (classify (env.upstream method endpoint data),
   { st with calls := st.calls ++ [(method, endpoint)] })

/-- Decimal digits to a number; `none` when empty or a non-digit appears. -/
def digitsToNat : List Char → Option Nat
  | [] => none
  | cs => cs.foldl (fun acc c => match acc with
      | none => none
      | some n => if c.isDigit then some (n * 10 + (c.toNat - 48)) else none) (some 0)

/-- Python `int(s)` on an id string: optional sign then decimal digits; `none`
models the ValueError (leading/trailing whitespace and underscore separators,
which Python also accepts, do not occur in upstream ids). -/
def pyInt (s : String) : Option Int :=
  match s.data with
  | '-' :: rest => (digitsToNat rest).map (fun n => -(n : Int))
  | '+' :: rest => (digitsToNat rest).map (fun n => (n : Int))
  | cs => (digitsToNat cs).map (fun n => (n : Int))

/-- Conversion of an id-keyed mapping response into a list of objects
(`data['id'] = int(id)` for each item).  Every value in the model is an object,
so the `isinstance(data, dict)` guard always passes; `int(id)` on a non-numeric
id would raise in Python (unreachable under the upstream contract) and is
modelled as 0. -/
def convertIdMap (m : List (String × JObj)) : List JObj :=
  m.map (fun p => listSet p.2 "id" (JPrim.i ((pyInt p.1).getD 0)))

/-- Common body of the `get_cached_projects` / `get_cached_tasks` helpers
(server.py lines 131-163), which are textually identical up to the cache key,
which is also the upstream endpoint name: a hit returns the cached list, a miss
fetches upstream, converts the id-keyed mapping and stores the list with the
configured TTL. -/
def readThroughList (key : String) (env : Env) (st : SState) :
    Except TErr (List JObj) × SState :=
  let g := st.cache.get key none env.nowTs
  let st1 : SState := { st with cache := g.2 }
  match g.1.1 with
  | some cv => (.ok cv.asObjs, st1)
  | none =>
      match srequest env st1 "GET" key none with
      | (.error e, st2) => (.error e, st2)
      | (.ok r, st2) =>
          let fetched := convertIdMap r.asIdMap
          (.ok fetched,
           { st2 with cache := (st2.cache.set CVal.pyStr key (.objs fetched)
               env.cacheTTL env.nowTs).2 })

/-- The `get_cached_tasks` helper (server.py lines 148-163). -/
def get_cached_tasks (env : Env) (st : SState) : Except TErr (List JObj) × SState :=
  readThroughList "tasks" env st

/-- The `get_cached_projects` helper (server.py lines 131-146). -/
def get_cached_projects (env : Env) (st : SState) : Except TErr (List JObj) × SState :=
  readThroughList "projects" env st

/-- The `format_duration` helper (server.py lines 165-172); Python `//` and `%`
are floor division and floor modulo. -/
def format_duration (seconds : Int) : String :=
  let hours := seconds.fdiv 3600
  let minutes := (seconds.fmod 3600).fdiv 60
  if hours > 0 then toString hours ++ "h " ++ toString minutes ++ "m"
  else toString minutes ++ "m"

/-- The `TimerResponse` model (models.py); fields the handler fills through
`.get` chains are scalars that may be `None`. -/
structure TimerResponse where
  message : String
  timer_id : JPrim
  task_id : Int
  task_name : String
  started_at : String
deriving DecidableEq

/-- The `StopTimerResponse` model (models.py). -/
structure StopTimerResponse where
  message : String
  duration : String
  duration_seconds : Int
  task_name : String
  task_id : JPrim
  timer_id : JPrim
deriving DecidableEq

/-- The `TimeEntryResponse` model (models.py). -/
structure TimeEntryResponse where
  entry_id : JPrim
  task_id : Int
  task_name : String
  project_name : String
  date : String
  start_time : String
  end_time : String
  duration : String
  duration_seconds : Int
  note : String
deriving DecidableEq

/-- The task-name resolution `next((t['name'] for t in tasks if t['id'] ==
task_id), 'Unknown')`.  An entry lacking the accessed keys would raise `KeyError`
in Python; entries produced by `convertIdMap` always carry "id", and a missing
key is modelled as no match / the default name. -/
def taskNameFor (tasks : List JObj) (task_id : Int) : String :=
  match tasks.find? (fun t => match t.lookup "id" with
      | some (.i n) => n == task_id
      | _ => false) with
  | some t => jGetS t "name" "Unknown"
  | none => "Unknown"

/-- The request body built by `start_timer` before the POST (`note` only when
truthy, i.e. non-empty). -/
def startTimerBody (env : Env) (task_id : Int) (note : String) : JObj :=
  [("task_id", .i task_id), ("started_at", .s env.nowIso)] ++
    (if note ≠ "" then [("note", .s note)] else [])

/-- The `start_timer` tool (server.py lines 437-493).  The
`except (httpx.RequestError, httpx.HTTPStatusError)` around the already-running
check can never fire, because `TimeCampClient.request` has already converted
those exceptions into `ToolError`; a failing check therefore propagates.
Validation messages are pydantic v2's first error message, fields checked in
declaration order. -/
def start_timer (env : Env) (st : SState) (task_id : Int) (note : Option String) :
    Except TErr TimerResponse × SState :=
  let note := note.getD ""
  if task_id ≤ 0 then (.error (.tool "Input should be greater than 0"), st)
  else if note.length > 1000 then
    (.error (.tool "String should have at most 1000 characters"), st)
  else if env.apiToken.isNone then
    (.error (.tool "TIMECAMP_API_TOKEN environment variable not set"), st)
  else
    match srequest env st "GET" "timer_running" none with
    | (.error e, st1) => (.error e, st1)
    | (.ok r, st1) =>
        let current := r.asObj
        if !current.isEmpty && (current.lookup "timer_id").isSome then
          (.error (.tool ("Timer already running for task '" ++
            jGetS current "name" "Unknown task" ++ "' (ID: " ++
            (jGetP current "timer_id").pyStr ++ ")")), st1)
        else
          match srequest env st1 "POST" "timer" (some (startTimerBody env task_id note)) with
          | (.error e, st2) => (.error e, st2)
          | (.ok result, st2) =>
              match get_cached_tasks env st2 with
              | (.error e, st3) => (.error e, st3)
              | (.ok tasks, st3) =>
                  let task_name := taskNameFor tasks task_id
                  let cache2 := (st3.cache.invalidate "timer").invalidate
                    ("time-entries/" ++ env.today)
                  let timerId := jGet2 result.asObj "timer_id" "new_timer_id"
                  let tracker2 := st3.tracker.record_change "timer_started" env.nowTs
                    [("task_id", .i task_id), ("task_name", .s task_name),
                     ("timer_id", timerId), ("started_at", .s env.nowIso)]
                  (.ok { message := "Timer started for task '" ++ task_name ++ "'",
                         timer_id := timerId, task_id := task_id,
                         task_name := task_name, started_at := env.nowIso },
                   { cache := cache2, tracker := tracker2, calls := st3.calls })

/-- Elapsed-duration computation in `stop_timer`: parse the running timer's
`started_at` (with "Z" replaced by "+00:00") and subtract from now; an absent
`started_at` yields the "Unknown duration" defaults; a non-string or unparsable
value raises in Python, an uncaught exception. -/
def stopDuration (env : Env) (current : JObj) : Except TErr (String × Int) :=
  match current.lookup "started_at" with
  | some (.s sa) =>
      match env.isoToTs (sa.replace "Z" "+00:00") with
      | some ts => .ok (format_duration (env.nowTs - ts), env.nowTs - ts)
      | none => .error (.py "ValueError: invalid isoformat string")
  | some _ => .error (.py "AttributeError: replace")
  | none => .ok ("Unknown duration", 0)

/-- The `stop_timer` tool (server.py lines 495-540). -/
def stop_timer (env : Env) (st : SState) : Except TErr StopTimerResponse × SState :=
  if env.apiToken.isNone then
    (.error (.tool "TIMECAMP_API_TOKEN environment variable not set"), st)
  else
    match srequest env st "GET" "timer_running" none with
    | (.error e, st1) => (.error e, st1)
    | (.ok r, st1) =>
        let current := r.asObj
        if current.isEmpty || (current.lookup "timer_id").isNone then
          (.error (.tool "No timer is currently running"), st1)
        else
          match srequest env st1 "PUT" "timer" (some [("action", .s "stop")]) with
          | (.error e, st2) => (.error e, st2)
          | (.ok _, st2) =>
              match stopDuration env current with
              | .error e => (.error e, st2)
              | .ok d =>
                  let cache2 := (st2.cache.invalidate "timer").invalidate
                    ("time-entries/" ++ env.today)
                  let tracker2 := st2.tracker.record_change "timer_stopped" env.nowTs
                    [("task_id", jGetP current "task_id"),
                     ("task_name", .s (jGetS current "name" "Unknown task")),
                     ("timer_id", jGetP current "timer_id"),
                     ("duration_seconds", .i d.2), ("duration", .s d.1)]
                  (.ok { message := "Timer stopped", duration := d.1,
                         duration_seconds := d.2,
                         task_name := jGetS current "name" "Unknown task",
                         task_id := jGetP current "task_id",
                         timer_id := jGetP current "timer_id" },
                   { cache := cache2, tracker := tracker2, calls := st2.calls })

/-- Python regex `^\d{4}-\d{2}-\d{2}$` over ASCII digits. -/
def matchesDatePat (s : String) : Bool :=
  match s.data with
  | [a, b, c, d, e, f, g, h, i, j] =>
      a.isDigit && b.isDigit && c.isDigit && d.isDigit && e == '-' &&
      f.isDigit && g.isDigit && h == '-' && i.isDigit && j.isDigit
  | _ => false

/-- Python regex `^\d{2}:\d{2}$` over ASCII digits. -/
def matchesTimePat (s : String) : Bool :=
  match s.data with
  | [a, b, c, d, e] => a.isDigit && b.isDigit && c == ':' && d.isDigit && e.isDigit
  | _ => false

/-- Strict lexicographic comparison on code-point lists. -/
def lexLt : List Char → List Char → Bool
  | [], [] => false
  | [], _ :: _ => true
  | _ :: _, [] => false
  | a :: as, b :: bs => if a < b then true else if a == b then lexLt as bs else false

/-- Python string `<=` (lexicographic on code points), as used by the
`validate_end_after_start` validator of models.py. -/
def pyStrLe (a b : String) : Bool :=
  lexLt a.data b.data || a == b

def digitVal (c : Char) : Nat := c.toNat - '0'.toNat

/-- `datetime.strptime(_, "%H:%M")` on a string: hours 00-23, minutes 00-59,
else ValueError. -/
def parseTimeHM (s : String) : Option (Nat × Nat) :=
  match s.data with
  | [a, b, c, d, e] =>
      if a.isDigit && b.isDigit && c == ':' && d.isDigit && e.isDigit then
        let hh := digitVal a * 10 + digitVal b
        let mm := digitVal d * 10 + digitVal e
        if hh ≤ 23 && mm ≤ 59 then some (hh, mm) else none
      else none
  | _ => none

def isLeapYear (y : Nat) : Bool :=
  (y % 4 == 0 && y % 100 != 0) || y % 400 == 0

def daysInMonth (y m : Nat) : Nat :=
  if m == 2 then (if isLeapYear y then 29 else 28)
  else if m == 4 || m == 6 || m == 9 || m == 11 then 30
  else 31

/-- `datetime.strptime(_, "%Y-%m-%d")` on a string: year 0001-9999, real
calendar month and day, else ValueError. -/
def parseDateYMD (s : String) : Option (Nat × Nat × Nat) :=
  match s.data with
  | [a, b, c, d, e, f, g, h, i, j] =>
      if a.isDigit && b.isDigit && c.isDigit && d.isDigit && e == '-' &&
         f.isDigit && g.isDigit && h == '-' && i.isDigit && j.isDigit then
        let y := ((digitVal a * 10 + digitVal b) * 10 + digitVal c) * 10 + digitVal d
        let m := digitVal f * 10 + digitVal g
        let day := digitVal i * 10 + digitVal j
        if 1 ≤ y && 1 ≤ m && m ≤ 12 && 1 ≤ day && day ≤ daysInMonth y m then
          some (y, m, day)
        else none
      else none
  | _ => none

/-- The request body built by `create_time_entry` (":00" seconds appended,
`note` only when non-empty). -/
def createEntryBody (task_id : Int) (date start_time end_time : String)
    (duration : Int) (note : String) : JObj :=
  [("task_id", .i task_id), ("date", .s date),
   ("start_time", .s (start_time ++ ":00")), ("end_time", .s (end_time ++ ":00")),
   ("duration", .i duration)] ++ (if note ≠ "" then [("note", .s note)] else [])

/-- The project-name resolution of `create_time_entry`: Python `==` between the
project's id and `task.get('project_id')`, where `None == None` is true and
`None` never equals an int or str; a project lacking "id" would raise `KeyError`
(modelled as no match). -/
def projectNameFor (projects : List JObj) (task? : Option JObj) : String :=
  match task? with
  | none => "No Project"
  | some t =>
      let pv := (t.lookup "project_id").getD JPrim.null
      match projects.find? (fun p => match p.lookup "id" with
          | some v => v == pv
          | none => false) with
      | some p => jGetS p "name" "No Project"
      | none => "No Project"

/-- The `create_time_entry` tool (server.py lines 544-627) with the
`CreateTimeEntryRequest` validation of models.py.  Pydantic checks the fields in
declaration order and the first failing field's message is surfaced; the
`end > start` check is a plain string comparison, run only when `start_time`
matched its pattern; after the token lookup, `strptime` rejects impossible
dates/times (Python appends `str(e)` to the "Invalid date/time format" message;
the model keeps the stable prefix). -/
def create_time_entry (env : Env) (st : SState) (task_id : Int)
    (date start_time end_time : String) (note : Option String) :
    Except TErr TimeEntryResponse × SState :=
  let note := note.getD ""
  if task_id ≤ 0 then (.error (.tool "Input should be greater than 0"), st)
  else if !matchesDatePat date then
    (.error (.tool "String should match pattern"), st)
  else if !matchesTimePat start_time then
    (.error (.tool "String should match pattern"), st)
  else if !matchesTimePat end_time then
    (.error (.tool "String should match pattern"), st)
  else if pyStrLe end_time start_time then
    (.error (.tool "Value error, End time must be after start time"), st)
  else if note.length > 1000 then
    (.error (.tool "String should have at most 1000 characters"), st)
  else if env.apiToken.isNone then
    (.error (.tool "TIMECAMP_API_TOKEN environment variable not set"), st)
  else
    match parseDateYMD date, parseTimeHM start_time, parseTimeHM end_time with
    | some _, some s, some e =>
        let duration : Int := ((e.1 * 60 + e.2 : Nat) : Int) * 60 -
          ((s.1 * 60 + s.2 : Nat) : Int) * 60
        match srequest env st "POST" "time_entries"
            (some (createEntryBody task_id date start_time end_time duration note)) with
        | (.error er, st1) => (.error er, st1)
        | (.ok result, st1) =>
            match get_cached_tasks env st1 with
            | (.error er, st2) => (.error er, st2)
            | (.ok tasks, st2) =>
                let task? := tasks.find? (fun t => match t.lookup "id" with
                  | some (.i n) => n == task_id
                  | _ => false)
                let task_name := match task? with
                  | some t => jGetS t "name" "Unknown"
                  | none => "Unknown"
                match get_cached_projects env st2 with
                | (.error er, st3) => (.error er, st3)
                | (.ok projects, st3) =>
                    let project_name := projectNameFor projects task?
                    let cache2 := st3.cache.invalidate ("time-entries/" ++ date)
                    let tracker2 := st3.tracker.record_change "time_entry_created"
                      env.nowTs
                      [("entry_id", jGet2 result.asObj "entry_id" "id"),
                       ("task_id", .i task_id), ("task_name", .s task_name),
                       ("project_name", .s project_name), ("date", .s date),
                       ("duration_seconds", .i duration),
                       ("duration", .s (format_duration duration))]
                    (.ok { entry_id := jGet2 result.asObj "entry_id" "id",
                           task_id := task_id, task_name := task_name,
                           project_name := project_name, date := date,
                           start_time := start_time, end_time := end_time,
                           duration := format_duration duration,
                           duration_seconds := duration, note := note },
                     { cache := cache2, tracker := tracker2, calls := st3.calls })
    | _, _, _ => (.error (.tool "Invalid date/time format"), st)

/-! Helper facts about the cache keys and the read-through helpers. -/

theorem timeEntries_key_long (s : String) :
    ("time-entries/" ++ s).length = 13 + s.length := by
  rw [String.length_append]
  have h13 : ("time-entries/" : String).length = 13 := rfl
  omega

theorem timer_ne_timeEntries (s : String) : "timer" ≠ "time-entries/" ++ s := by
  intro h
  have hlen := congrArg String.length h
  rw [timeEntries_key_long] at hlen
  have h5 : ("timer" : String).length = 5 := rfl
  omega

theorem tasks_ne_timeEntries (s : String) : "tasks" ≠ "time-entries/" ++ s := by
  intro h
  have hlen := congrArg String.length h
  rw [timeEntries_key_long] at hlen
  have h5 : ("tasks" : String).length = 5 := rfl
  omega

theorem projects_ne_timeEntries (s : String) : "projects" ≠ "time-entries/" ++ s := by
  intro h
  have hlen := congrArg String.length h
  rw [timeEntries_key_long] at hlen
  have h8 : ("projects" : String).length = 8 := rfl
  omega

/-- The etag string stored by `set` for a freshly fetched list. -/
def freshEtag (v : CVal) : String :=
  "\"" ++ md5hex (CVal.pyStr v) ++ "\""

/-- Equation for `readThroughList`: live cache hit. -/
theorem readThroughList_hit (key : String) (env : Env) (st : SState)
    (ent : CacheEntry CVal) (hl : st.cache.lookup key = some ent)
    (hexp : env.nowTs < ent.expiry) :
    readThroughList key env st = (.ok ent.value.asObjs, st) := by
  unfold readThroughList
  have hg : st.cache.get key none env.nowTs =
      ((some ent.value, some ent.etag, false), st.cache) := by
    simp [SimpleCache.get, hl, hexp]
  rw [hg]

/-- Equation for `readThroughList`: cache miss, upstream fetch fails. -/
theorem readThroughList_missFail (key : String) (env : Env) (st : SState) (e : TErr)
    (hl : st.cache.lookup key = none)
    (hr : classify (env.upstream "GET" key none) = .error e) :
    readThroughList key env st =
      (.error e, { st with calls := st.calls ++ [("GET", key)] }) := by
  unfold readThroughList srequest
  have hg : st.cache.get key none env.nowTs = ((none, none, false), st.cache) := by
    simp [SimpleCache.get, hl]
  rw [hg, hr]

/-- Equation for `readThroughList`: cache miss, upstream fetch succeeds. -/
theorem readThroughList_missOk (key : String) (env : Env) (st : SState) (resp : UpResp)
    (hl : st.cache.lookup key = none)
    (hr : classify (env.upstream "GET" key none) = .ok resp) :
    readThroughList key env st =
      (.ok (convertIdMap resp.asIdMap),
       { st with
          cache := (st.cache.set CVal.pyStr key (.objs (convertIdMap resp.asIdMap))
            env.cacheTTL env.nowTs).2,
          calls := st.calls ++ [("GET", key)] }) := by
  unfold readThroughList srequest
  have hg : st.cache.get key none env.nowTs = ((none, none, false), st.cache) := by
    simp [SimpleCache.get, hl]
  rw [hg, hr]

/-- Equation for `readThroughList`: expired entry purged, upstream fetch fails. -/
theorem readThroughList_expiredFail (key : String) (env : Env) (st : SState)
    (ent : CacheEntry CVal) (e : TErr) (hl : st.cache.lookup key = some ent)
    (hexp : ¬ env.nowTs < ent.expiry)
    (hr : classify (env.upstream "GET" key none) = .error e) :
    readThroughList key env st =
      (.error e,
       { st with
          cache := st.cache.erase key,
          calls := st.calls ++ [("GET", key)] }) := by
  unfold readThroughList srequest
  have hg : st.cache.get key none env.nowTs =
      ((none, none, false), st.cache.erase key) := by
    simp [SimpleCache.get, hl, hexp]
  rw [hg, hr]

/-- Equation for `readThroughList`: expired entry purged, upstream fetch
succeeds. -/
theorem readThroughList_expiredOk (key : String) (env : Env) (st : SState)
    (ent : CacheEntry CVal) (resp : UpResp) (hl : st.cache.lookup key = some ent)
    (hexp : ¬ env.nowTs < ent.expiry)
    (hr : classify (env.upstream "GET" key none) = .ok resp) :
    readThroughList key env st =
      (.ok (convertIdMap resp.asIdMap),
       { st with
          cache := ((st.cache.erase key).set CVal.pyStr key
            (.objs (convertIdMap resp.asIdMap)) env.cacheTTL env.nowTs).2,
          calls := st.calls ++ [("GET", key)] }) := by
  unfold readThroughList srequest
  have hg : st.cache.get key none env.nowTs =
      ((none, none, false), st.cache.erase key) := by
    simp [SimpleCache.get, hl, hexp]
  rw [hg, hr]

/-- Frame of the read-through helpers: they never touch the tracker, never change
a key other than their own, and on success either left their key alone (live hit)
or stored a freshly fetched list under it. -/
theorem readThroughList_frame (key : String) (env : Env) (st : SState) :
    (readThroughList key env st).2.tracker = st.tracker ∧
    (∀ k, k ≠ key → (readThroughList key env st).2.cache.lookup k = st.cache.lookup k) ∧
    (∀ v, (readThroughList key env st).1 = Except.ok v →
      ((readThroughList key env st).2.cache.lookup key = st.cache.lookup key ∨
        ∃ l, (readThroughList key env st).2.cache.lookup key =
          some ⟨CVal.objs l, env.nowTs + env.cacheTTL, freshEtag (CVal.objs l)⟩)) := by
  rcases hl : st.cache.lookup key with _ | ent
  · rcases hr : classify (env.upstream "GET" key none) with e | resp
    · rw [readThroughList_missFail key env st e hl hr]
      exact ⟨rfl, fun k hk => rfl, fun v hv => by simp at hv⟩
    · rw [readThroughList_missOk key env st resp hl hr]
      refine ⟨rfl, ?_, ?_⟩
      · intro k hk
        exact SimpleCache.lookup_set_ne _ _ _ _ _ _ _ hk
      · intro v hv
        exact Or.inr ⟨convertIdMap resp.asIdMap, SimpleCache.lookup_set_self _ _ _ _ _ _⟩
  · by_cases hexp : env.nowTs < ent.expiry
    · rw [readThroughList_hit key env st ent hl hexp]
      exact ⟨rfl, fun k hk => rfl, fun v hv => Or.inl hl⟩
    · rcases hr : classify (env.upstream "GET" key none) with e | resp
      · rw [readThroughList_expiredFail key env st ent e hl hexp hr]
        refine ⟨rfl, ?_, ?_⟩
        · intro k hk
          exact SimpleCache.lookup_erase_ne _ _ _ hk
        · intro v hv
          simp at hv
      · rw [readThroughList_expiredOk key env st ent resp hl hexp hr]
        refine ⟨rfl, ?_, ?_⟩
        · intro k hk
          rw [SimpleCache.lookup_set_ne _ _ _ _ _ _ _ hk]
          exact SimpleCache.lookup_erase_ne _ _ _ hk
        · intro v hv
          exact Or.inr ⟨convertIdMap resp.asIdMap, SimpleCache.lookup_set_self _ _ _ _ _ _⟩

/-- C8: when the fresh, uncached upstream check reports a timer already running,
`start_timer` fails with an already-running error naming the existing task,
issues no start request upstream (the I/O trace gains only the check), invalidates
no cache key, and appends no change-log record. -/
theorem C8_already_running_guard (env : Env) (st : SState) (task_id : Int)
    (note : Option String) (o : JObj)
    (hv : 0 < task_id) (hn : (note.getD "").length ≤ 1000)
    (htok : env.apiToken.isNone = false)
    (hup : env.upstream "GET" "timer_running" none = .ok (.obj o))
    (hne : o.isEmpty = false) (hid : (o.lookup "timer_id").isSome = true) :
    start_timer env st task_id note =
      (.error (.tool ("Timer already running for task '" ++ jGetS o "name" "Unknown task"
        ++ "' (ID: " ++ (jGetP o "timer_id").pyStr ++ ")")),
       { st with calls := st.calls ++ [("GET", "timer_running")] }) := by
  have h1 : ¬ task_id ≤ 0 := by omega
  have h2 : ¬ (note.getD "").length > 1000 := by omega
  simp [start_timer, srequest, hup, classify, UpResp.asObj, htok, hne, hid, h1, h2]

/-- A concrete environment in which a timer is already running upstream. -/
def envRunning : Env :=
  { apiToken := some "tok",
    upstream := fun _ ep _ =>
      if ep == "timer_running" then
        .ok (.obj [("timer_id", .i 9), ("name", .s "Writing")])
      else .ok (.obj []),
    nowTs := 1000, today := "2026-10-12", nowIso := "2026-10-12T10:00:00",
    isoToTs := fun _ => none, cacheTTL := 300 }

/-- The empty server state. -/
def stEmpty : SState := ⟨⟨[]⟩, ⟨[]⟩, []⟩

/-- C8 witness at a concrete instance. -/
theorem C8_already_running_guard_witness :
    start_timer envRunning stEmpty 5 none =
      (.error (.tool "Timer already running for task 'Writing' (ID: 9)"),
       { stEmpty with calls := [("GET", "timer_running")] }) := by
  have h := C8_already_running_guard envRunning stEmpty 5 none
    [("timer_id", JPrim.i 9), ("name", JPrim.s "Writing")]
    (by decide) (by decide) rfl rfl rfl rfl
  rw [h]
  rfl

/-- C3: for each mutating operation, if the upstream write request fails with a
classified API/network error, the operation surfaces exactly that typed failure
and the cache and the change log are exactly as they were before the operation
(only the trace of attempted calls grows). -/
theorem C3_write_failure_no_mutation :
    (∀ (env : Env) (st : SState) (task_id : Int) (note : Option String)
        (r : UpResp) (e : TErr),
      0 < task_id → (note.getD "").length ≤ 1000 → env.apiToken.isNone = false →
      classify (env.upstream "GET" "timer_running" none) = .ok r →
      (!(r.asObj.isEmpty) && (r.asObj.lookup "timer_id").isSome) = false →
      classify (env.upstream "POST" "timer"
        (some (startTimerBody env task_id (note.getD "")))) = .error e →
      start_timer env st task_id note =
        (.error e, { st with calls := st.calls ++
          [("GET", "timer_running"), ("POST", "timer")] })) ∧
    (∀ (env : Env) (st : SState) (r : UpResp) (e : TErr),
      env.apiToken.isNone = false →
      classify (env.upstream "GET" "timer_running" none) = .ok r →
      (r.asObj.isEmpty || (r.asObj.lookup "timer_id").isNone) = false →
      classify (env.upstream "PUT" "timer" (some [("action", .s "stop")])) = .error e →
      stop_timer env st =
        (.error e, { st with calls := st.calls ++
          [("GET", "timer_running"), ("PUT", "timer")] })) ∧
    (∀ (env : Env) (st : SState) (task_id : Int) (date start_time end_time : String)
        (note : Option String) (d : Nat × Nat × Nat) (s e2 : Nat × Nat) (e : TErr),
      0 < task_id → matchesDatePat date = true → matchesTimePat start_time = true →
      matchesTimePat end_time = true → pyStrLe end_time start_time = false →
      (note.getD "").length ≤ 1000 → env.apiToken.isNone = false →
      parseDateYMD date = some d → parseTimeHM start_time = some s →
      parseTimeHM end_time = some e2 →
      classify (env.upstream "POST" "time_entries"
        (some (createEntryBody task_id date start_time end_time
          (((e2.1 * 60 + e2.2 : Nat) : Int) * 60 - ((s.1 * 60 + s.2 : Nat) : Int) * 60)
          (note.getD "")))) = .error e →
      create_time_entry env st task_id date start_time end_time note =
        (.error e, { st with calls := st.calls ++ [("POST", "time_entries")] })) := by
  refine ⟨?_, ?_, ?_⟩
  · intro env st task_id note r e hv hn htok hok1 hcur hpost
    have h1 : ¬ task_id ≤ 0 := by omega
    have h2 : ¬ (note.getD "").length > 1000 := by omega
    simp [start_timer, srequest, hok1, hcur, htok, h1, h2, hpost]
  · intro env st r e htok hok1 hcur hput
    simp [stop_timer, srequest, hok1, hcur, htok, hput]
  · intro env st task_id date start_time end_time note d s e2 e hv hd hs he hle hn htok
      hpd hps hpe hpost
    have h1 : ¬ task_id ≤ 0 := by omega
    have h2 : ¬ (note.getD "").length > 1000 := by omega
    push_cast at hpost
    simp [create_time_entry, srequest, hd, hs, he, hle, htok, h1, h2, hpd, hps, hpe, hpost]

/-- A concrete environment in which no timer runs and every write fails with a
503 from upstream. -/
def envWriteFail : Env :=
  { apiToken := some "tok",
    upstream := fun m ep _ =>
      if m == "GET" && ep == "timer_running" then
        .ok (.obj [("timer_id", .i 4), ("name", .s "Old"), ("task_id", .i 2),
                   ("started_at", .s "2026-10-12T09:00:00")])
      else .httpStatus 503,
    nowTs := 1000, today := "2026-10-12", nowIso := "2026-10-12T10:00:00",
    isoToTs := fun _ => some 900, cacheTTL := 300 }

/-- C3 witness at a concrete instance (stop_timer against a failing PUT). -/
theorem C3_write_failure_no_mutation_witness :
    stop_timer envWriteFail stEmpty =
      (.error (.tool "TimeCamp unavailable. Try again later"),
       { stEmpty with calls := [("GET", "timer_running"), ("PUT", "timer")] }) := by
  have h := C3_write_failure_no_mutation.2.1 envWriteFail stEmpty
    (.obj [("timer_id", .i 4), ("name", .s "Old"), ("task_id", .i 2),
           ("started_at", .s "2026-10-12T09:00:00")])
    (.tool "TimeCamp unavailable. Try again later") rfl rfl rfl rfl
  rw [h]
  rfl

/-- Success shape of `start_timer`: a successful run reached the task-list
read-through from a state whose cache was still the initial one, and its final
cache is that read-through result with exactly `timer` and todays entry key
invalidated. -/
theorem start_timer_ok_shape (env : Env) (st : SState) (task_id : Int)
    (note : Option String) (r : TimerResponse) (st2 : SState)
    (hok : start_timer env st task_id note = (.ok r, st2)) :
    ∃ stPre tasks stMid, stPre.cache = st.cache ∧
      get_cached_tasks env stPre = (.ok tasks, stMid) ∧
      st2.cache = (stMid.cache.invalidate "timer").invalidate
        ("time-entries/" ++ env.today) := by
  simp only [start_timer] at hok
  split at hok
  · exact absurd hok (by simp)
  split at hok
  · exact absurd hok (by simp)
  split at hok
  · exact absurd hok (by simp)
  split at hok
  · exact absurd hok (by simp)
  rename_i rA stA heqA
  split at hok
  · exact absurd hok (by simp)
  split at hok
  · exact absurd hok (by simp)
  rename_i rB stB heqB
  split at hok
  · exact absurd hok (by simp)
  rename_i tasks stC heqC
  rw [Prod.mk.injEq] at hok
  obtain ⟨hfst, hsnd⟩ := hok
  have hA : stA.cache = st.cache := by
    have h := congrArg Prod.snd heqA
    dsimp only at h
    rw [← h]
    rfl
  have hB : stB.cache = st.cache := by
    have h := congrArg Prod.snd heqB
    dsimp only at h
    rw [← h, ← hA]
    rfl
  refine ⟨stB, tasks, stC, hB, heqC, ?_⟩
  rw [← hsnd]

/-- Success shape of `stop_timer`: its final cache is the initial one with
exactly `timer` and todays entry key invalidated (stop_timer performs no cached
reads at all). -/
theorem stop_timer_ok_shape (env : Env) (st : SState) (r : StopTimerResponse)
    (st2 : SState) (hok : stop_timer env st = (.ok r, st2)) :
    st2.cache = (st.cache.invalidate "timer").invalidate
      ("time-entries/" ++ env.today) := by
  simp only [stop_timer] at hok
  split at hok
  · exact absurd hok (by simp)
  split at hok
  · exact absurd hok (by simp)
  rename_i rA stA heqA
  split at hok
  · exact absurd hok (by simp)
  split at hok
  · exact absurd hok (by simp)
  rename_i rB stB heqB
  split at hok
  · exact absurd hok (by simp)
  rename_i d heqD
  rw [Prod.mk.injEq] at hok
  obtain ⟨hfst, hsnd⟩ := hok
  have hA : stA.cache = st.cache := by
    have h := congrArg Prod.snd heqA
    dsimp only at h
    rw [← h]
    rfl
  have hB : stB.cache = st.cache := by
    have h := congrArg Prod.snd heqB
    dsimp only at h
    rw [← h, ← hA]
    rfl
  rw [← hsnd]
  show (stB.cache.invalidate "timer").invalidate ("time-entries/" ++ env.today) = _
  rw [hB]

/-- Success shape of `create_time_entry`: the times parsed, the duration is the
wall-clock difference in seconds, both read-throughs ran from a state whose cache
was still the initial one, and the final cache is the read-through result with
exactly the entry dates key invalidated. -/
theorem create_time_entry_ok_shape (env : Env) (st : SState) (task_id : Int)
    (date start_time end_time : String) (note : Option String)
    (r : TimeEntryResponse) (st2 : SState)
    (hok : create_time_entry env st task_id date start_time end_time note =
      (.ok r, st2)) :
    (∃ s e2, parseTimeHM start_time = some s ∧ parseTimeHM end_time = some e2 ∧
        r.duration_seconds = ((e2.1 * 60 + e2.2 : Nat) : Int) * 60 -
          ((s.1 * 60 + s.2 : Nat) : Int) * 60) ∧
    ∃ stPre tasks stMid projects stMid2,
      stPre.cache = st.cache ∧
      get_cached_tasks env stPre = (.ok tasks, stMid) ∧
      get_cached_projects env stMid = (.ok projects, stMid2) ∧
      st2.cache = stMid2.cache.invalidate ("time-entries/" ++ date) := by
  simp only [create_time_entry] at hok
  split at hok
  · exact absurd hok (by simp)
  split at hok
  · exact absurd hok (by simp)
  split at hok
  · exact absurd hok (by simp)
  split at hok
  · exact absurd hok (by simp)
  split at hok
  · exact absurd hok (by simp)
  split at hok
  · exact absurd hok (by simp)
  split at hok
  · exact absurd hok (by simp)
  rcases hpd : parseDateYMD date with _ | dd
  · rw [hpd] at hok
    simp at hok
  rw [hpd] at hok
  rcases hps : parseTimeHM start_time with _ | ss
  · rw [hps] at hok
    simp at hok
  rw [hps] at hok
  rcases hpe : parseTimeHM end_time with _ | ee
  · rw [hpe] at hok
    simp at hok
  rw [hpe] at hok
  dsimp only at hok
  split at hok
  · exact absurd hok (by simp)
  rename_i rP stA heqP
  split at hok
  · exact absurd hok (by simp)
  rename_i tasks stB heqT
  split at hok
  · exact absurd hok (by simp)
  rename_i projects stC heqPr
  rw [Prod.mk.injEq] at hok
  obtain ⟨hfst, hsnd⟩ := hok
  have hA : stA.cache = st.cache := by
    have h := congrArg Prod.snd heqP
    dsimp only at h
    rw [← h]
    rfl
  constructor
  · refine ⟨ss, ee, rfl, rfl, ?_⟩
    injection hfst with hfst2
    subst hfst2
    rfl
  · refine ⟨stA, tasks, stB, projects, stC, hA, heqT, heqPr, ?_⟩
    rw [← hsnd]

/-- C9: `create_time_entry` validates `end > start` on the same date before any
network call (on the zero-padded `HH:MM` strings, where lexicographic order
coincides with clock order): with `end_time ≤ start_time` it fails with the
validator error and the state, including the I/O trace, is exactly the initial
one; and whenever the operation succeeds, the entry `duration_seconds` is the
wall-clock difference end minus start in seconds. -/
theorem C9_validation_and_duration :
    (∀ (env : Env) (st : SState) (task_id : Int) (date start_time end_time : String)
        (note : Option String),
      0 < task_id → matchesDatePat date = true → matchesTimePat start_time = true →
      matchesTimePat end_time = true → pyStrLe end_time start_time = true →
      create_time_entry env st task_id date start_time end_time note =
        (.error (.tool "Value error, End time must be after start time"), st)) ∧
    (∀ (env : Env) (st : SState) (task_id : Int) (date start_time end_time : String)
        (note : Option String) (s e2 : Nat × Nat) (r : TimeEntryResponse) (st2 : SState),
      parseTimeHM start_time = some s → parseTimeHM end_time = some e2 →
      create_time_entry env st task_id date start_time end_time note = (.ok r, st2) →
      r.duration_seconds = ((e2.1 * 60 + e2.2 : Nat) : Int) * 60 -
        ((s.1 * 60 + s.2 : Nat) : Int) * 60) := by
  constructor
  · intro env st task_id date start_time end_time note hv hd hs he hle
    have h1 : ¬ task_id ≤ 0 := by omega
    simp [create_time_entry, hd, hs, he, hle, h1]
  · intro env st task_id date start_time end_time note s e2 r st2 hps hpe hok
    obtain ⟨⟨s2, e3, hps2, hpe2, hdur⟩, _⟩ :=
      create_time_entry_ok_shape env st task_id date start_time end_time note r st2 hok
    rw [hps] at hps2
    rw [hpe] at hpe2
    injection hps2 with h2
    injection hpe2 with h3
    subst h2
    subst h3
    exact hdur

/-- A concrete environment against which `create_time_entry` fully succeeds. -/
def envCreateOk : Env :=
  { apiToken := some "tok",
    upstream := fun m ep _ =>
      if m == "POST" && ep == "time_entries" then .ok (.obj [("entry_id", .i 77)])
      else if ep == "tasks" then
        .ok (.idMap [("3", [("name", .s "TaskA"), ("project_id", .i 1)])])
      else if ep == "projects" then
        .ok (.idMap [("1", [("name", .s "ProjX")])])
      else .ok (.obj []),
    nowTs := 1000, today := "2026-10-12", nowIso := "2026-10-12T10:00:00",
    isoToTs := fun _ => some 900, cacheTTL := 300 }

/-- C9 witness: the end-before-start rejection at `start=16:00, end=14:00`, and a
successful creation whose duration is two hours. -/
theorem C9_validation_and_duration_witness :
    (create_time_entry envWriteFail stEmpty 3 "2026-10-12" "16:00" "14:00" none =
      (.error (.tool "Value error, End time must be after start time"), stEmpty)) ∧
    ({ entry_id := .i 77, task_id := 3, task_name := "TaskA", project_name := "ProjX",
       date := "2026-10-12", start_time := "14:00", end_time := "16:00",
       duration := "2h 0m", duration_seconds := 7200,
       note := "" : TimeEntryResponse }).duration_seconds =
      ((16 * 60 + 0 : Nat) : Int) * 60 - ((14 * 60 + 0 : Nat) : Int) * 60 := by
  constructor
  · exact C9_validation_and_duration.1 envWriteFail stEmpty 3 "2026-10-12" "16:00"
      "14:00" none (by decide) rfl rfl rfl rfl
  · exact C9_validation_and_duration.2 envCreateOk stEmpty 3 "2026-10-12" "14:00"
      "16:00" none (14, 0) (16, 0)
      { entry_id := .i 77, task_id := 3, task_name := "TaskA", project_name := "ProjX",
        date := "2026-10-12", start_time := "14:00", end_time := "16:00",
        duration := "2h 0m", duration_seconds := 7200, note := "" }
      (create_time_entry envCreateOk stEmpty 3 "2026-10-12" "14:00" "16:00" none).2
      rfl rfl (by rfl)

/-- Whether a handler call succeeded. -/
def isOkE {α : Type} : Except TErr α → Bool
  | .ok _ => true
  | .error _ => false

/-- C1 counterexample: the claim says a successful `start_timer` leaves the
`tasks` cache entry unchanged, but starting from an empty cache a fully
successful run populates the `tasks` key (the post-write task-name resolution is
a read-through). -/
theorem C1_counterexample :
    isOkE (start_timer envCreateOk stEmpty 5 none).1 = true ∧
    stEmpty.cache.lookup "tasks" = none ∧
    ((start_timer envCreateOk stEmpty 5 none).2.cache.lookup "tasks").isSome = true := by
  refine ⟨by rfl, by rfl, by rfl⟩

/-- C1 (amended): when the operation completes successfully, `start_timer` and
`stop_timer` invalidate precisely the cache keys `timer` and
`time-entries/{today}`, and `create_time_entry` invalidates precisely
`time-entries/{date}` for the entry date, leaving `timer` and every other date
key unchanged — with the one qualification the code forces: the task/project
name resolution inside `start_timer` (for `tasks`) and `create_time_entry` (for
`tasks` and `projects`) is a read-through that may populate or refresh those two
keys when they are not live in the cache; they are never invalidated.
`stop_timer` touches no key beyond the two it invalidates. -/
theorem C1_invalidation_policy :
    (∀ (env : Env) (st : SState) (task_id : Int) (note : Option String)
        (r : TimerResponse) (st2 : SState),
      start_timer env st task_id note = (.ok r, st2) →
      st2.cache.lookup "timer" = none ∧
      st2.cache.lookup ("time-entries/" ++ env.today) = none ∧
      (∀ k, k ≠ "timer" → k ≠ "time-entries/" ++ env.today → k ≠ "tasks" →
        st2.cache.lookup k = st.cache.lookup k) ∧
      (st2.cache.lookup "tasks" = st.cache.lookup "tasks" ∨
        ∃ l, st2.cache.lookup "tasks" =
          some ⟨CVal.objs l, env.nowTs + env.cacheTTL, freshEtag (CVal.objs l)⟩)) ∧
    (∀ (env : Env) (st : SState) (r : StopTimerResponse) (st2 : SState),
      stop_timer env st = (.ok r, st2) →
      st2.cache = (st.cache.invalidate "timer").invalidate
        ("time-entries/" ++ env.today)) ∧
    (∀ (env : Env) (st : SState) (task_id : Int)
        (date start_time end_time : String) (note : Option String)
        (r : TimeEntryResponse) (st2 : SState),
      create_time_entry env st task_id date start_time end_time note = (.ok r, st2) →
      st2.cache.lookup ("time-entries/" ++ date) = none ∧
      (∀ k, k ≠ "time-entries/" ++ date → k ≠ "tasks" → k ≠ "projects" →
        st2.cache.lookup k = st.cache.lookup k) ∧
      (st2.cache.lookup "tasks" = st.cache.lookup "tasks" ∨
        ∃ l, st2.cache.lookup "tasks" =
          some ⟨CVal.objs l, env.nowTs + env.cacheTTL, freshEtag (CVal.objs l)⟩) ∧
      (st2.cache.lookup "projects" = st.cache.lookup "projects" ∨
        ∃ l, st2.cache.lookup "projects" =
          some ⟨CVal.objs l, env.nowTs + env.cacheTTL, freshEtag (CVal.objs l)⟩)) := by
  refine ⟨?_, ?_, ?_⟩
  · intro env st task_id note r st2 hok
    obtain ⟨stPre, tasks, stMid, hcache, hct, hfinal⟩ :=
      start_timer_ok_shape env st task_id note r st2 hok
    have hct2 : readThroughList "tasks" env stPre = (.ok tasks, stMid) := hct
    have hmid := congrArg Prod.snd hct2
    dsimp only at hmid
    have hfst := congrArg Prod.fst hct2
    dsimp only at hfst
    have hframe := readThroughList_frame "tasks" env stPre
    rw [hmid, hcache] at hframe
    obtain ⟨-, hfr, htk⟩ := hframe
    have htasks := htk tasks hfst
    rw [hfinal]
    simp only [SimpleCache.invalidate]
    refine ⟨?_, ?_, ?_, ?_⟩
    · rw [SimpleCache.lookup_erase_ne _ _ _ (timer_ne_timeEntries env.today)]
      exact SimpleCache.lookup_erase_self _ _
    · exact SimpleCache.lookup_erase_self _ _
    · intro k hk1 hk2 hk3
      rw [SimpleCache.lookup_erase_ne _ _ _ hk2, SimpleCache.lookup_erase_ne _ _ _ hk1]
      exact hfr k hk3
    · rw [SimpleCache.lookup_erase_ne _ _ _ (tasks_ne_timeEntries env.today),
          SimpleCache.lookup_erase_ne _ _ _ (by decide : ("tasks" : String) ≠ "timer")]
      exact htasks
  · intro env st r st2 hok
    exact stop_timer_ok_shape env st r st2 hok
  · intro env st task_id date start_time end_time note r st2 hok
    obtain ⟨-, stPre, tasks, stMid, projects, stMid2, hcache, hct, hcp, hfinal⟩ :=
      create_time_entry_ok_shape env st task_id date start_time end_time note r st2 hok
    have hct2 : readThroughList "tasks" env stPre = (.ok tasks, stMid) := hct
    have hcp2 : readThroughList "projects" env stMid = (.ok projects, stMid2) := hcp
    have hmid1 := congrArg Prod.snd hct2
    dsimp only at hmid1
    have hfst1 := congrArg Prod.fst hct2
    dsimp only at hfst1
    have hmid2 := congrArg Prod.snd hcp2
    dsimp only at hmid2
    have hfst2 := congrArg Prod.fst hcp2
    dsimp only at hfst2
    have hframe1 := readThroughList_frame "tasks" env stPre
    rw [hmid1, hcache] at hframe1
    obtain ⟨-, hfr1, htk1⟩ := hframe1
    have hframe2 := readThroughList_frame "projects" env stMid
    rw [hmid2] at hframe2
    obtain ⟨-, hfr2, htk2⟩ := hframe2
    rw [hfinal]
    simp only [SimpleCache.invalidate]
    refine ⟨?_, ?_, ?_, ?_⟩
    · exact SimpleCache.lookup_erase_self _ _
    · intro k hk1 hk2 hk3
      rw [SimpleCache.lookup_erase_ne _ _ _ hk1, hfr2 k hk3, hfr1 k hk2]
    · rw [SimpleCache.lookup_erase_ne _ _ _ (tasks_ne_timeEntries date),
          hfr2 "tasks" (by decide)]
      exact htk1 tasks hfst1
    · rw [SimpleCache.lookup_erase_ne _ _ _ (projects_ne_timeEntries date)]
      rcases htk2 projects hfst2 with hsame | ⟨l, hl⟩
      · rw [hsame, hfr1 "projects" (by decide)]
        exact Or.inl rfl
      · exact Or.inr ⟨l, hl⟩

/-- C1 witness: concrete successful runs of the three operations, with the
invalidated keys gone afterwards. -/
theorem C1_invalidation_policy_witness :
    ((start_timer envCreateOk stEmpty 5 none).2.cache.lookup "timer" = none) ∧
    ((stop_timer envRunning stEmpty).2.cache =
      (stEmpty.cache.invalidate "timer").invalidate
        ("time-entries/" ++ envRunning.today)) ∧
    ((create_time_entry envCreateOk stEmpty 3 "2026-10-12" "14:00" "16:00"
        none).2.cache.lookup "time-entries/2026-10-12" = none) := by
  refine ⟨?_, ?_, ?_⟩
  · exact (C1_invalidation_policy.1 envCreateOk stEmpty 5 none
      { message := "Timer started for task 'Unknown'", timer_id := .null, task_id := 5,
        task_name := "Unknown", started_at := "2026-10-12T10:00:00" }
      (start_timer envCreateOk stEmpty 5 none).2 (by rfl)).1
  · exact C1_invalidation_policy.2.1 envRunning stEmpty
      { message := "Timer stopped", duration := "Unknown duration", duration_seconds := 0,
        task_name := "Writing", task_id := .null, timer_id := .i 9 }
      (stop_timer envRunning stEmpty).2 (by rfl)
  · exact (C1_invalidation_policy.2.2 envCreateOk stEmpty 3 "2026-10-12" "14:00"
      "16:00" none
      { entry_id := .i 77, task_id := 3, task_name := "TaskA", project_name := "ProjX",
        date := "2026-10-12", start_time := "14:00", end_time := "16:00",
        duration := "2h 0m", duration_seconds := 7200, note := "" }
      (create_time_entry envCreateOk stEmpty 3 "2026-10-12" "14:00" "16:00" none).2
      (by rfl)).1

end Timecamp
